import Mathlib

/-!
Verification of the SeExpr vector value type (`src/SeExpr/SeVec3d.h`) and the
pattern-matching test driver (`src/tests/patterns.cpp`).

The C++ `double` arithmetic is embedded as exact real arithmetic (`ℝ`):
every claim settled here is an algebraic/structural property of the source
formulas, read off the header verbatim.  C++ in-place operators (`+=`, `-=`,
`*=`, `/=`), which mutate the receiver through a reference and return that
same reference, are embedded by explicit state passing: a `Store` maps
object locations to vector values, a mutating operator is a function
`Store → …  → Store × location`, and a non-mutating (`const`) operator is a
function that returns the store untouched together with the freshly
constructed value.
-/

namespace SeExpr2

/-- Embedding of the C++ class `Vec3d`: three double-precision components
`_vec[0], _vec[1], _vec[2]`, modelled as real numbers `x`, `y`, `z`. -/
@[ext]
structure Vec3d where
  x : ℝ
  y : ℝ
  z : ℝ

/-- The zero vector `(0,0,0)`, used to state the claims. -/
def Vec3d.zero : Vec3d := ⟨0, 0, 0⟩

/-- The C++ default constructor `Vec3d() {}` has an empty body: it writes
nothing, so the three components keep whatever values the underlying memory
already held.  The pre-existing memory contents are passed explicitly. -/
def Vec3d.defaultCtor (mem : Vec3d) : Vec3d := mem

/-- Scalar constructor `Vec3d(double v) { setValue(v, v, v); }`. -/
def Vec3d.scalar (v : ℝ) : Vec3d := ⟨v, v, v⟩

/-- Component-wise binary vector addition `operator+`. -/
def Vec3d.add (a b : Vec3d) : Vec3d := ⟨a.x + b.x, a.y + b.y, a.z + b.z⟩

/-- Component-wise binary vector subtraction `operator-`. -/
def Vec3d.sub (a b : Vec3d) : Vec3d := ⟨a.x - b.x, a.y - b.y, a.z - b.z⟩

/-- Nondestructive unary negation `operator-()`: returns a new vector. -/
def Vec3d.neg (v : Vec3d) : Vec3d := ⟨-v.x, -v.y, -v.z⟩

/-- Component-wise binary scalar multiplication `operator*(double d)`. -/
def Vec3d.mulS (v : Vec3d) (d : ℝ) : Vec3d := ⟨v.x * d, v.y * d, v.z * d⟩

/-- Component-wise binary scalar division `operator/(double d)`, which the
source computes as `*this * (1/d)`. -/
noncomputable def Vec3d.divS (v : Vec3d) (d : ℝ) : Vec3d := v.mulS (1 / d)

/-- Inner product `dot`. -/
def Vec3d.dot (a b : Vec3d) : ℝ := a.x * b.x + a.y * b.y + a.z * b.z

/-- Cross product `cross`. -/
def Vec3d.cross (a b : Vec3d) : Vec3d :=
  ⟨a.y * b.z - a.z * b.y, a.z * b.x - a.x * b.z, a.x * b.y - a.y * b.x⟩

/-- Length of vector: `sqrt(_vec[0]*_vec[0]+_vec[1]*_vec[1]+_vec[2]*_vec[2])`. -/
noncomputable def Vec3d.length (v : Vec3d) : ℝ :=
  Real.sqrt (v.x * v.x + v.y * v.y + v.z * v.z)

/-- Return normalized vector: `if (len) return *this / len; else return 0.0;`
(the `else` branch converts the double `0.0` through the scalar constructor). -/
noncomputable def Vec3d.normalized (v : Vec3d) : Vec3d :=
  if v.length = 0 then Vec3d.scalar 0 else v.divS v.length

/-- In-place `normalize()`: `if (len) *this /= len;` — embedded as the value
of the receiver after the call. -/
noncomputable def Vec3d.normalize (v : Vec3d) : Vec3d :=
  if v.length = 0 then v else v.divS v.length

/-- Return a vector orthogonal to the current vector:
`Vec3d( _vec[1]+_vec[2], _vec[2]-_vec[0], -_vec[0]-_vec[1] )`. -/
def Vec3d.orthogonal (v : Vec3d) : Vec3d :=
  ⟨v.y + v.z, v.z - v.x, -v.x - v.y⟩

/-- Angle between two vectors:
`len = length()*v.length(); if (len == 0) return 0; return acos(dot(v)/len);`. -/
noncomputable def Vec3d.angle (a b : Vec3d) : ℝ :=
  if a.length * b.length = 0 then 0
  else Real.arccos (a.dot b / (a.length * b.length))

/-- A store mapping C++ object locations to their current vector value. -/
abbrev Store := ℕ → Vec3d

/-- Compound assignment `operator+=`: mutates the receiver's components in
place and returns `*this`, i.e. the receiver's own location. -/
def Vec3d.addAssign (σ : Store) (r : ℕ) (v : Vec3d) : Store × ℕ :=
  (Function.update σ r ((σ r).add v), r)

/-- Compound assignment `operator-=`. -/
def Vec3d.subAssign (σ : Store) (r : ℕ) (v : Vec3d) : Store × ℕ :=
  (Function.update σ r ((σ r).sub v), r)

/-- Compound scalar assignment `operator*=(double d)`. -/
def Vec3d.mulSAssign (σ : Store) (r : ℕ) (d : ℝ) : Store × ℕ :=
  (Function.update σ r ((σ r).mulS d), r)

/-- Compound scalar assignment `operator/=(double d)`, which the source
computes as `*this *= 1/d; return *this;`. -/
noncomputable def Vec3d.divSAssign (σ : Store) (r : ℕ) (d : ℝ) : Store × ℕ :=
  ((Vec3d.mulSAssign σ r (1 / d)).1, r)

/-- Store-level view of `const` binary `operator+`: reads both operands and
returns a newly constructed value, leaving the store untouched. -/
def Vec3d.addOp (σ : Store) (a b : ℕ) : Store × Vec3d :=
  (σ, (σ a).add (σ b))

/-- Store-level view of `const` binary `operator-`. -/
def Vec3d.subOp (σ : Store) (a b : ℕ) : Store × Vec3d :=
  (σ, (σ a).sub (σ b))

/-- Store-level view of `const` scalar `operator*`. -/
def Vec3d.mulSOp (σ : Store) (a : ℕ) (d : ℝ) : Store × Vec3d :=
  (σ, (σ a).mulS d)

/-- Store-level view of `const` scalar `operator/`. -/
noncomputable def Vec3d.divSOp (σ : Store) (a : ℕ) (d : ℝ) : Store × Vec3d :=
  (σ, (σ a).divS d)

/-- Store-level view of `const` unary `operator-`. -/
def Vec3d.negOp (σ : Store) (a : ℕ) : Store × Vec3d :=
  (σ, (σ a).neg)

/-! ### Embedding of the test driver `src/tests/patterns.cpp` -/

/-- Minimal stand-in for the external class `SeExprType` (its header is not
part of the two given source files; the claims settled here treat it as an
opaque result-kind value). -/
structure SeExprType where
  dim : ℕ
  varying : Bool
deriving DecidableEq

/-- Per-child data that `DummyFuncX::prep` reads from a `SeExprFuncNode`:
whether child `i` is a string/tag argument (`node->isStrArg(i)`) and whether
preparing the child succeeds (`node->child(i)->prep(false, env).isValid()`). -/
structure ChildInfo where
  isStrArg : Bool
  prepValid : Bool
deriving DecidableEq

/-- A function call node, reduced to the child data `DummyFuncX::prep` uses. -/
structure SeExprFuncNode where
  children : List ChildInfo
deriving DecidableEq

/-- The validity flag accumulated by the loop in `DummyFuncX::prep`:
`valid &= child(i)->prep(false,env).isValid()` for every non-tag child. -/
def DummyFuncX.prepValid (node : SeExprFuncNode) : Bool :=
  node.children.foldl (fun valid c => if !c.isStrArg then valid && c.prepValid else valid) true

/-- Embedding of `DummyFuncX::prep`: accumulates the validity flag over the
non-tag children, then returns `wanted` (the flag is a dead local). -/
def DummyFuncX.prep (node : SeExprFuncNode) (wanted : SeExprType) : SeExprType :=
  let _valid := DummyFuncX.prepValid node
  wanted

/-- Embedding of `DummyFuncX::eval`: `result = SeVec3d();` assigns a
default-constructed vector, so the result is whatever the constructor's
pre-existing memory held. -/
def DummyFuncX.eval (mem : Vec3d) : Vec3d := Vec3d.defaultCtor mem

/-- Stand-in for the external class `SeExprVarRef` (opaque here). -/
structure SeExprVarRef where

/-- Stand-in for the external wrapper class `SeExprFunc`, keeping the
argument-count bounds the driver constructs it with. -/
structure SeExprFunc where
  minArgs : ℕ
  maxArgs : ℕ
deriving DecidableEq

/-- The one fixed stand-in function `dummyFunc(dummyFuncX, 0, 16)`. -/
def PatternExpr.dummyFunc : SeExprFunc := ⟨0, 16⟩

/-- `PatternExpr::resolveVar`: `return 0;` — the null pointer is the explicit
"unresolved" outcome, embedded as `none`. -/
def PatternExpr.resolveVar (name : String) : Option SeExprVarRef := none

/-- `PatternExpr::resolveFunc`: `return &dummyFunc;` — every name resolves to
the one fixed stand-in function. -/
def PatternExpr.resolveFunc (name : String) : Option SeExprFunc :=
  some PatternExpr.dummyFunc

/-- Embedding of the driver's `quit` routine: it calls `exit(0)` exactly when
the line equals `"quit"` or `"q"`; the Boolean records whether it exits. -/
def quitExits (str : String) : Bool :=
  str == "quit" || str == "q"

/-- One iteration of the driver's `main` loop on a line already read:
`quit(str)` terminates the process (`none`) or the line is submitted as
expression text via `expr.setExpr(str)` (`some str`). -/
def mainStep (str : String) : Option String :=
  if quitExits str then none else some str

/-! ### Helper lemmas -/

/-- Length of the zero vector is 0. -/
lemma Vec3d.zero_length : Vec3d.zero.length = 0 := by
  simp [Vec3d.length, Vec3d.zero, Real.sqrt_zero]

/-- Over exact real arithmetic, a vector has length 0 exactly when it is the
zero vector. -/
lemma Vec3d.length_eq_zero_iff (v : Vec3d) : v.length = 0 ↔ v = Vec3d.zero := by
  unfold Vec3d.length
  rw [Real.sqrt_eq_zero
    (add_nonneg (add_nonneg (mul_self_nonneg _) (mul_self_nonneg _)) (mul_self_nonneg _))]
  constructor
  · intro h
    have hx : v.x * v.x = 0 := by
      nlinarith [mul_self_nonneg v.x, mul_self_nonneg v.y, mul_self_nonneg v.z]
    have hy : v.y * v.y = 0 := by
      nlinarith [mul_self_nonneg v.x, mul_self_nonneg v.y, mul_self_nonneg v.z]
    have hz : v.z * v.z = 0 := by
      nlinarith [mul_self_nonneg v.x, mul_self_nonneg v.y, mul_self_nonneg v.z]
    ext
    · exact mul_self_eq_zero.mp hx
    · exact mul_self_eq_zero.mp hy
    · exact mul_self_eq_zero.mp hz
  · intro h
    rw [h]
    simp [Vec3d.zero]

/-- The dot product of a vector with itself is the square of its length. -/
lemma Vec3d.dot_self (v : Vec3d) : v.dot v = v.length * v.length := by
  unfold Vec3d.dot Vec3d.length
  rw [Real.mul_self_sqrt
    (add_nonneg (add_nonneg (mul_self_nonneg _) (mul_self_nonneg _)) (mul_self_nonneg _))]

/-! ### Claims -/

/-- C1 (counterexample): the claim that a default-constructed `Vec3d` has all
three components equal to 0 fails: the constructor body is empty, so when the
underlying memory holds `(1,2,3)` the constructed vector is `(1,2,3)`, not
the zero vector. -/
theorem defaultCtor_not_zero_initialized :
    Vec3d.defaultCtor ⟨1, 2, 3⟩ ≠ Vec3d.zero := by
  simp [Vec3d.defaultCtor, Vec3d.zero]

/-- C1 (amended): the default constructor writes nothing, so the constructed
vector keeps the pre-existing memory contents; `DummyFuncX::eval` assigns such
a vector to its result, hence its result is those contents, and is nonzero
memory whenever the memory was nonzero. -/
theorem defaultCtor_preserves_memory (mem : Vec3d) :
    Vec3d.defaultCtor mem = mem ∧ DummyFuncX.eval mem = mem ∧
    (mem ≠ Vec3d.zero → DummyFuncX.eval mem ≠ Vec3d.zero) :=
  ⟨rfl, rfl, fun h => h⟩

/-- C1 (witness): at the concrete memory contents `(4,5,6)`, the stand-in's
eval does not return the zero vector. -/
theorem defaultCtor_preserves_memory_witness :
    DummyFuncX.eval ⟨4, 5, 6⟩ ≠ Vec3d.zero :=
  (defaultCtor_preserves_memory ⟨4, 5, 6⟩).2.2 (by simp [Vec3d.zero])

/-- C2: on a vector of length 0, `normalized()` returns the zero vector and
the in-place `normalize()` leaves the receiver unchanged — and over exact
arithmetic that receiver is itself the zero vector; in both operations the
zero-length branch bypasses the division. -/
theorem normalize_zero_length (v : Vec3d) (h : v.length = 0) :
    v.normalized = Vec3d.zero ∧ v.normalize = v ∧ v = Vec3d.zero := by
  refine ⟨?_, ?_, (Vec3d.length_eq_zero_iff v).mp h⟩
  · rw [Vec3d.normalized, if_pos h]
    rfl
  · rw [Vec3d.normalize, if_pos h]

/-- C2 (witness): the zero vector has length 0, normalizes to itself, and is
left unchanged by the in-place form. -/
theorem normalize_zero_length_witness :
    Vec3d.zero.normalized = Vec3d.zero ∧ Vec3d.zero.normalize = Vec3d.zero ∧
    Vec3d.zero = Vec3d.zero :=
  normalize_zero_length Vec3d.zero Vec3d.zero_length

/-- C3: `angle` returns `acos(dot / (|a|*|b|))` when the product of the two
lengths is nonzero and 0 when either vector has zero length; in particular
the zero vector's angle with anything is 0, and a nonzero vector's angle with
itself is exactly 0. -/
theorem angle_spec (a b : Vec3d) :
    (a.length * b.length ≠ 0 →
      a.angle b = Real.arccos (a.dot b / (a.length * b.length))) ∧
    (a.length = 0 ∨ b.length = 0 → a.angle b = 0) ∧
    Vec3d.zero.angle b = 0 ∧
    (a ≠ Vec3d.zero → a.angle a = 0) := by
  refine ⟨fun h => ?_, fun h => ?_, ?_, fun h => ?_⟩
  · rw [Vec3d.angle, if_neg h]
  · rw [Vec3d.angle, if_pos (mul_eq_zero.mpr h)]
  · rw [Vec3d.angle, if_pos (by rw [Vec3d.zero_length, zero_mul])]
  · have h1 : a.length ≠ 0 := fun h0 => h ((Vec3d.length_eq_zero_iff a).mp h0)
    have h2 : a.length * a.length ≠ 0 := mul_ne_zero h1 h1
    rw [Vec3d.angle, if_neg h2, Vec3d.dot_self, div_self h2, Real.arccos_one]

/-- C3 (witness): the unit vector `(1,0,0)` is nonzero and its angle with
itself is 0. -/
theorem angle_spec_witness : Vec3d.angle ⟨1, 0, 0⟩ ⟨1, 0, 0⟩ = 0 :=
  (angle_spec ⟨1, 0, 0⟩ ⟨1, 0, 0⟩).2.2.2 (by simp [Vec3d.zero])

/-- C4: the test resolution policy resolves every variable name to the
explicit "unresolved" outcome (`none`, never a default value), and every
function name to the one fixed stand-in function. -/
theorem resolve_policy_spec (name : String) :
    PatternExpr.resolveVar name = none ∧
    PatternExpr.resolveFunc name = some PatternExpr.dummyFunc :=
  ⟨rfl, rfl⟩

/-- C5: `cross` computes the right-handed formula
`(y1*z2−z1*y2, z1*x2−x1*z2, x1*y2−y1*x2)` and is anti-commutative:
`a.cross b = -(b.cross a)`. -/
theorem cross_anticomm (a b : Vec3d) :
    a.cross b =
      ⟨a.y * b.z - a.z * b.y, a.z * b.x - a.x * b.z, a.x * b.y - a.y * b.x⟩ ∧
    a.cross b = Vec3d.neg (b.cross a) := by
  refine ⟨rfl, ?_⟩
  simp only [Vec3d.cross, Vec3d.neg, Vec3d.mk.injEq]
  refine ⟨by ring, by ring, by ring⟩

/-- C6: for every vector `v`, `orthogonal` returns exactly
`(y+z, z−x, −x−y)`, and for every nonzero `v` the dot product of the vector
with its `orthogonal` is exactly 0. -/
theorem orthogonal_spec (v : Vec3d) :
    v.orthogonal = ⟨v.y + v.z, v.z - v.x, -v.x - v.y⟩ ∧
    (v ≠ Vec3d.zero → v.dot v.orthogonal = 0) := by
  refine ⟨rfl, fun _ => ?_⟩
  simp only [Vec3d.dot, Vec3d.orthogonal]
  ring

/-- C6 (witness): at the nonzero vector `(1,0,0)`, the dot product with its
orthogonal vector is 0. -/
theorem orthogonal_spec_witness :
    Vec3d.dot ⟨1, 0, 0⟩ (Vec3d.orthogonal ⟨1, 0, 0⟩) = 0 :=
  (orthogonal_spec ⟨1, 0, 0⟩).2 (by simp [Vec3d.zero])

/-- C7: each compound assignment (`+=`, `-=`, `*=` scalar, `/=` scalar)
updates the receiver's location in place with the component-wise result,
returns that same location (enabling chaining), and changes no other
location; each non-mutating form (`+`, `-`, scalar `*`, scalar `/`, unary
`-`) leaves the store — both operands included — untouched and returns a
newly constructed value. -/
theorem vec_ops_frame_spec (σ : Store) (r a b l : ℕ) (w : Vec3d) (d : ℝ)
    (hl : l ≠ r) :
    ((Vec3d.addAssign σ r w).2 = r ∧
      (Vec3d.addAssign σ r w).1 r = (σ r).add w ∧
      (Vec3d.addAssign σ r w).1 l = σ l) ∧
    ((Vec3d.subAssign σ r w).2 = r ∧
      (Vec3d.subAssign σ r w).1 r = (σ r).sub w ∧
      (Vec3d.subAssign σ r w).1 l = σ l) ∧
    ((Vec3d.mulSAssign σ r d).2 = r ∧
      (Vec3d.mulSAssign σ r d).1 r = (σ r).mulS d ∧
      (Vec3d.mulSAssign σ r d).1 l = σ l) ∧
    ((Vec3d.divSAssign σ r d).2 = r ∧
      (Vec3d.divSAssign σ r d).1 r = (σ r).mulS (1 / d) ∧
      (Vec3d.divSAssign σ r d).1 l = σ l) ∧
    ((Vec3d.addOp σ a b).1 = σ ∧ (Vec3d.addOp σ a b).2 = (σ a).add (σ b)) ∧
    ((Vec3d.subOp σ a b).1 = σ ∧ (Vec3d.subOp σ a b).2 = (σ a).sub (σ b)) ∧
    ((Vec3d.mulSOp σ a d).1 = σ ∧ (Vec3d.mulSOp σ a d).2 = (σ a).mulS d) ∧
    ((Vec3d.divSOp σ a d).1 = σ ∧ (Vec3d.divSOp σ a d).2 = (σ a).divS d) ∧
    ((Vec3d.negOp σ a).1 = σ ∧ (Vec3d.negOp σ a).2 = (σ a).neg) := by
  refine ⟨⟨rfl, ?_, ?_⟩, ⟨rfl, ?_, ?_⟩, ⟨rfl, ?_, ?_⟩, ⟨rfl, ?_, ?_⟩,
    ⟨rfl, rfl⟩, ⟨rfl, rfl⟩, ⟨rfl, rfl⟩, ⟨rfl, rfl⟩, ⟨rfl, rfl⟩⟩ <;>
  simp [Vec3d.addAssign, Vec3d.subAssign, Vec3d.mulSAssign, Vec3d.divSAssign,
    Function.update_noteq hl]

/-- C7 (witness): at a concrete store, `+=` returns the receiver's location 0
and leaves the distinct location 1 unchanged. -/
theorem vec_ops_frame_spec_witness :
    (Vec3d.addAssign (fun _ => Vec3d.zero) 0 Vec3d.zero).2 = 0 ∧
    (Vec3d.addAssign (fun _ => Vec3d.zero) 0 Vec3d.zero).1 1 = Vec3d.zero :=
  ⟨(vec_ops_frame_spec (fun _ => Vec3d.zero) 0 0 0 1 Vec3d.zero 1
      (by decide)).1.1,
   (vec_ops_frame_spec (fun _ => Vec3d.zero) 0 0 0 1 Vec3d.zero 1
      (by decide)).1.2.2⟩

/-- C8: the driver's quit routine terminates the process exactly when the
input line is `"quit"` or `"q"`; every other line is submitted as expression
text. -/
theorem quit_loop_spec (str : String) :
    (quitExits str = true ↔ str = "quit" ∨ str = "q") ∧
    (str ≠ "quit" → str ≠ "q" → mainStep str = some str) := by
  constructor
  · simp [quitExits]
  · intro h1 h2
    have hq : quitExits str = false := by simp [quitExits, h1, h2]
    simp [mainStep, hq]

/-- C8 (witness): the line `"hello"` is neither `"quit"` nor `"q"` and is
submitted as expression text. -/
theorem quit_loop_spec_witness : mainStep "hello" = some "hello" :=
  (quit_loop_spec "hello").2 (by decide) (by decide)

/-- C9: `DummyFuncX::prep` accumulates a validity flag over the non-tag
children but returns the wanted type unconditionally — in particular it still
returns `wanted` when the accumulated flag is `false`, i.e. when some non-tag
argument failed preparation. -/
theorem prep_returns_wanted (node : SeExprFuncNode) (wanted : SeExprType) :
    DummyFuncX.prep node wanted = wanted ∧
    (DummyFuncX.prepValid node = false → DummyFuncX.prep node wanted = wanted) :=
  ⟨rfl, fun _ => rfl⟩

/-- C9 (witness): for a node with one non-tag child whose preparation fails,
the accumulated flag is `false`, yet `prep` still returns the wanted type. -/
theorem prep_returns_wanted_witness :
    DummyFuncX.prepValid ⟨[⟨false, false⟩]⟩ = false ∧
    DummyFuncX.prep ⟨[⟨false, false⟩]⟩ ⟨1, true⟩ = ⟨1, true⟩ :=
  ⟨by decide, (prep_returns_wanted ⟨[⟨false, false⟩]⟩ ⟨1, true⟩).2 (by decide)⟩

end SeExpr2
